import Mathlib

/-!
Verification of the reliability-layer repository (circuit breaker, provider
router, retry/failover client, streaming relay) against its specification.

The repository contains two implementations of the circuit breaker and the
orchestration loop:
  * a TypeScript gateway described in the milestone documents
    (`CircuitBreaker`, `Router`, `ProviderClient`, `StreamingProviderClient`),
  * a Go server (`internal/client/circuit_breaker.go`,
    `internal/router/router.go`, `internal/orchestrator/orchestrator.go`).

Both are embedded below as pure functions.  Wall-clock time (`Date.now()`,
`time.Now()`) is passed explicitly as a natural number of milliseconds; the
mutex-guarded mutation of a breaker is modelled by returning the updated
breaker, so a sequence of lock-serialized calls is a sequence of function
applications.
-/

namespace TS

/-- Circuit state of the milestone gateway breaker: two states only
(`'closed' | 'open'`), per `src/provider/circuitBreaker.ts`. -/
inductive CState where
  | closed
  | open
  deriving DecidableEq, Repr

/-- The milestone `CircuitBreaker`: `name`, `state`, `consecutiveFails`,
`lastFailure` plus the `CircuitBreakerConfig` fields `failureThreshold` and
`resetTimeout` (milliseconds). -/
structure CircuitBreaker where
  name : String
  failureThreshold : Nat
  resetTimeout : Nat
  state : CState
  consecutiveFails : Nat
  lastFailure : Nat
  deriving DecidableEq, Repr

/-- Fresh breaker as built by the constructor: closed, zero fails,
`lastFailure = 0`. -/
def CircuitBreaker.mk0 (name : String) (threshold timeout : Nat) : CircuitBreaker :=
  { name := name, failureThreshold := threshold, resetTimeout := timeout,
    state := .closed, consecutiveFails := 0, lastFailure := 0 }

/-- `canExecute()`: closed returns true; open checks
`Date.now() - lastFailure > resetTimeout` and, when elapsed, resets the
breaker to closed (fails cleared) and returns true; otherwise returns false.
The boolean is the admission decision, the second component the mutated
breaker. -/
def canExecute (cb : CircuitBreaker) (now : Nat) : Bool × CircuitBreaker :=
  match cb.state with
  | .closed => (true, cb)
  | .open =>
    if cb.resetTimeout < now - cb.lastFailure then
      (true, { cb with state := .closed, consecutiveFails := 0 })
    else
      (false, cb)

/-- `recordSuccess()`: sets `consecutiveFails = 0` (the state field is not
touched). -/
def recordSuccess (cb : CircuitBreaker) : CircuitBreaker :=
  { cb with consecutiveFails := 0 }

/-- `recordFailure()`: increments `consecutiveFails`, stamps `lastFailure`,
and sets the state to open once the count reaches `failureThreshold`. -/
def recordFailure (cb : CircuitBreaker) (now : Nat) : CircuitBreaker :=
  let cb := { cb with consecutiveFails := cb.consecutiveFails + 1, lastFailure := now }
  if cb.failureThreshold ≤ cb.consecutiveFails then
    { cb with state := .open }
  else
    cb

/-- `recordFailure` applied `n` times in a row at the same instant. -/
def recordFailureIter (cb : CircuitBreaker) (now : Nat) : Nat → CircuitBreaker
  | 0 => cb
  | n + 1 => recordFailureIter (recordFailure cb now) now n

end TS

namespace GoSrv

/-- Circuit state of the Go breaker: `closed`, `open`, `half_open`
(`internal/client/circuit_breaker.go`). -/
inductive CircuitState where
  | closed
  | open
  | halfOpen
  deriving DecidableEq, Repr

/-- The Go `CircuitBreaker` struct: `name`, `threshold`, `timeout`, and the
mutex-protected fields `state`, `failureCount`, `successCount`,
`lastFailureTime`, `openedAt`. -/
structure CircuitBreaker where
  name : String
  threshold : Nat
  timeout : Nat
  state : CircuitState
  failureCount : Nat
  successCount : Nat
  lastFailureTime : Nat
  openedAt : Nat
  deriving DecidableEq, Repr

/-- `NewCircuitBreaker`: starts closed with zero counts. -/
def NewCircuitBreaker (name : String) (threshold timeout : Nat) : CircuitBreaker :=
  { name := name, threshold := threshold, timeout := timeout, state := .closed,
    failureCount := 0, successCount := 0, lastFailureTime := 0, openedAt := 0 }

/-- `IsOpen()`: when open, checks `time.Since(openedAt) > timeout`; if the
timeout has passed it moves the breaker to half-open and reports not-open
(the caller is admitted); otherwise reports open.  In every non-open state it
reports not-open without touching the breaker. -/
def IsOpen (cb : CircuitBreaker) (now : Nat) : Bool × CircuitBreaker :=
  if cb.state = .open then
    if cb.timeout < now - cb.openedAt then
      (false, { cb with state := .halfOpen })
    else
      (true, cb)
  else
    (false, cb)

/-- `RecordSuccess()`: bumps `successCount`; a success in half-open closes the
circuit and clears `failureCount`; a success while closed only decrements a
positive `failureCount` by one ("gradually decrease failure count"); a success
while open changes nothing else. -/
def RecordSuccess (cb : CircuitBreaker) : CircuitBreaker :=
  let cb := { cb with successCount := cb.successCount + 1 }
  if cb.state = .halfOpen then
    { cb with state := .closed, failureCount := 0 }
  else if cb.state = .closed then
    if 0 < cb.failureCount then { cb with failureCount := cb.failureCount - 1 } else cb
  else
    cb

/-- `RecordFailure()`: bumps `failureCount` and stamps `lastFailureTime`; a
failure in half-open reopens the circuit with a fresh `openedAt`; a failure
while closed opens it once `failureCount` reaches `threshold`. -/
def RecordFailure (cb : CircuitBreaker) (now : Nat) : CircuitBreaker :=
  let cb := { cb with failureCount := cb.failureCount + 1, lastFailureTime := now }
  if cb.state = .halfOpen then
    { cb with state := .open, openedAt := now }
  else if cb.state = .closed then
    if cb.threshold ≤ cb.failureCount then
      { cb with state := .open, openedAt := now }
    else
      cb
  else
    cb

/-- `RecordFailure` applied `n` times in a row at the same instant. -/
def RecordFailureIter (cb : CircuitBreaker) (now : Nat) : Nat → CircuitBreaker
  | 0 => cb
  | n + 1 => RecordFailureIter (RecordFailure cb now) now n

end GoSrv

namespace TS

/-- The `Provider` record of `src/provider/router.ts`: name, url and the
provider's own circuit breaker. -/
structure Provider where
  name : String
  url : String
  circuit : CircuitBreaker
  deriving DecidableEq, Repr

/-- First pass of `Router.getHealthyProvider()`: walk the configured provider
list in order and return the first whose `circuit.canExecute()` answers true.
Each probed breaker may mutate (auto-reset), so the updated list is returned
alongside the result. -/
def getHealthyProvider (now : Nat) : List Provider → Option Provider × List Provider
  | [] => (none, [])
  | p :: ps =>
    let r := canExecute p.circuit now
    let p2 := { p with circuit := r.2 }
    if r.1 then
      (some p2, p2 :: ps)
    else
      let rest := getHealthyProvider now ps
      (rest.1, p2 :: rest.2)

/-- First loop of `Router.getNextProvider()`: providers strictly after the
current one (`foundCurrent` flag), first with an executable circuit wins.
Matching the source, `canExecute` is only invoked once the flag is set. -/
def nextAfter (currentName : String) (now : Nat) :
    Bool → List Provider → Option Provider × List Provider
  | _, [] => (none, [])
  | found, p :: ps =>
    if p.name = currentName then
      let rest := nextAfter currentName now true ps
      (rest.1, p :: rest.2)
    else if found then
      let r := canExecute p.circuit now
      let p2 := { p with circuit := r.2 }
      if r.1 then
        (some p2, p2 :: ps)
      else
        let rest := nextAfter currentName now found ps
        (rest.1, p2 :: rest.2)
    else
      let rest := nextAfter currentName now found ps
      (rest.1, p :: rest.2)

/-- Second loop of `Router.getNextProvider()` ("Wrap around - check providers
before current"): walk from the start, stop at the current provider, return
the first executable circuit found before it. -/
def nextBefore (currentName : String) (now : Nat) :
    List Provider → Option Provider × List Provider
  | [] => (none, [])
  | p :: ps =>
    if p.name = currentName then
      (none, p :: ps)
    else
      let r := canExecute p.circuit now
      let p2 := { p with circuit := r.2 }
      if r.1 then
        (some p2, p2 :: ps)
      else
        let rest := nextBefore currentName now ps
        (rest.1, p2 :: rest.2)

/-- `Router.getNextProvider(currentName)` composed of the two loops. -/
def getNextProvider (ps : List Provider) (currentName : String) (now : Nat) :
    Option Provider × List Provider :=
  let r1 := nextAfter currentName now false ps
  match r1.1 with
  | some p => (some p, r1.2)
  | none => nextBefore currentName now r1.2

/-- The `ProviderError` of `src/provider/errors.ts`: a typed error tag plus
the `retryable` and `failover` flags set by the static constructors. -/
structure ProviderError where
  type : String
  retryable : Bool
  failover : Bool
  deriving DecidableEq, Repr

/-- `ProviderError.networkError`: retryable, no failover. -/
def ProviderError.networkError : ProviderError := ⟨"network", true, false⟩

/-- `ProviderError.timeoutError`: retryable, no failover. -/
def ProviderError.timeoutError : ProviderError := ⟨"timeout", true, false⟩

/-- `ProviderError.serverError`: retryable, no failover. -/
def ProviderError.serverError : ProviderError := ⟨"server_error", true, false⟩

/-- `ProviderError.rateLimitError`: not retryable, failover set — the 429
path. -/
def ProviderError.rateLimitError : ProviderError := ⟨"rate_limit", false, true⟩

/-- `ProviderError.clientError`: not retryable, no failover. -/
def ProviderError.clientError : ProviderError := ⟨"client_error", false, false⟩

/-- `RetryConfig` of the milestone client: `maxAttempts`, `baseDelay`,
`maxDelay` (milliseconds). -/
structure RetryConfig where
  maxAttempts : Nat
  baseDelay : Nat
  maxDelay : Nat
  deriving DecidableEq, Repr

/-- `ProviderClient.calculateBackoff(attempt)` with `Math.random()` passed
explicitly as `r ∈ [0,1)`:
`wait = min(baseDelay * 2^(attempt-1), maxDelay)`, jitter factor
`1.0 + (r*0.4 - 0.2)`, result `Math.floor(wait * jitter)`. -/
def calculateBackoff (baseDelay maxDelay : ℚ) (attempt : Nat) (r : ℚ) : ℤ :=
  let wait := baseDelay * 2 ^ (attempt - 1)
  let wait := min wait maxDelay
  let jitter := 1 + (r * (2 / 5) - 1 / 5)
  Int.floor (wait * jitter)

/-- Terminal errors of `ProviderClient.call` / `callWithRetry`.  `provider`
is a thrown `ProviderError`; `exhausted` the plain
`Error('Exhausted N attempts')`; `allFailed` the plain
`Error('All attempts failed')`; `noHealthy` the initial
`Error('No healthy providers available')`; `fuelOut` is a model artifact
marking truncation of the source's unbounded `while (provider)` loop. -/
inductive ClientErr where
  | provider (e : ProviderError)
  | exhausted
  | allFailed
  | noHealthy
  | fuelOut
  deriving DecidableEq, Repr

deriving instance DecidableEq for Except

/-- One entry of the attempt trace: the provider asked, the per-provider
attempt number passed to `doRequest`, and the outcome the provider returned. -/
structure AttemptRec where
  provider : String
  attempt : Nat
  outcome : Except ProviderError String
  deriving DecidableEq, Repr

/-- Result of `callWithRetry`: the returned `(content, attempts)` or thrown
error, the provider's breaker after the loop, the trace of attempts actually
made, and the attempt numbers after which a backoff sleep was performed. -/
structure CWROut where
  res : Except ClientErr (String × Nat)
  circuit : CircuitBreaker
  trace : List AttemptRec
  sleeps : List Nat
  deriving DecidableEq, Repr

/-- Body of `ProviderClient.callWithRetry`: the `for attempt = 1..maxAttempts`
loop, with `fuel` counting the remaining iterations (entered with
`fuel = maxAttempts`, `attempt = 1`, so `fuel = 0` is the loop exit that
throws `Exhausted`).  `behavior name attempt` is the outcome of
`doRequest` for that attempt.  On success the circuit records a success and
`(content, attempt)` is returned.  On a `ProviderError` the circuit records
the failure first; a failover error or a non-retryable error is rethrown at
once (no sleep); otherwise a backoff sleep happens unless this was the last
attempt, and the loop continues. -/
def callWithRetryGo (behavior : String → Nat → Except ProviderError String)
    (name : String) (now : Nat) :
    Nat → Nat → CircuitBreaker → CWROut
  | 0, _, cb => ⟨.error .exhausted, cb, [], []⟩
  | fuel + 1, attempt, cb =>
    match behavior name attempt with
    | .ok content =>
      ⟨.ok (content, attempt), recordSuccess cb, [⟨name, attempt, .ok content⟩], []⟩
    | .error e =>
      let cb2 := recordFailure cb now
      let entry : AttemptRec := ⟨name, attempt, .error e⟩
      if e.failover then
        ⟨.error (.provider e), cb2, [entry], []⟩
      else if e.retryable = false then
        ⟨.error (.provider e), cb2, [entry], []⟩
      else
        let slept := if fuel = 0 then ([] : List Nat) else [attempt]
        let rest := callWithRetryGo behavior name now fuel (attempt + 1) cb2
        ⟨rest.res, rest.circuit, entry :: rest.trace, slept ++ rest.sleeps⟩

/-- `ProviderClient.callWithRetry(requestId, req, provider)`. -/
def callWithRetry (behavior : String → Nat → Except ProviderError String)
    (cfg : RetryConfig) (name : String) (now : Nat) (cb : CircuitBreaker) : CWROut :=
  callWithRetryGo behavior name now cfg.maxAttempts 1 cb

/-- Circuit of the named provider in the router list (the list always holds
the name when reached from `call`; the default is a fresh breaker). -/
def getCircuit (ps : List Provider) (name : String) : CircuitBreaker :=
  match ps.find? (fun p => p.name = name) with
  | some p => p.circuit
  | none => CircuitBreaker.mk0 name 3 30000

/-- Write a provider's breaker back into the router list (first name match). -/
def setCircuit : List Provider → String → CircuitBreaker → List Provider
  | [], _, _ => []
  | p :: ps, name, cb =>
    if p.name = name then
      { p with circuit := cb } :: ps
    else
      p :: setCircuit ps name cb

/-- Result of `ProviderClient.call`: the response (content and the *reported*
`attempts` figure) or thrown error, the router state, the attempt trace, and
the performed sleeps. -/
structure CallOut where
  res : Except ClientErr (String × Nat)
  providers : List Provider
  trace : List AttemptRec
  sleeps : List Nat
  deriving DecidableEq, Repr

/-- The `while (provider)` loop of `ProviderClient.call`, carrying
`totalAttempts`.  On success the reported figure is
`totalAttempts + result.attempts`; on any `callWithRetry` error
`totalAttempts += maxAttempts` is added, then a thrown `ProviderError` with
`failover` moves to `getNextProvider` (loop ends with `All attempts failed`
when none remains) and every other error breaks out of the loop. -/
def callLoop (behavior : String → Nat → Except ProviderError String)
    (cfg : RetryConfig) (now : Nat) :
    Nat → String → List Provider → Nat → CallOut
  | 0, _, ps, _ => ⟨.error .fuelOut, ps, [], []⟩
  | fuel + 1, name, ps, total =>
    let r := callWithRetry behavior cfg name now (getCircuit ps name)
    let ps2 := setCircuit ps name r.circuit
    match r.res with
    | .ok (content, a) => ⟨.ok (content, total + a), ps2, r.trace, r.sleeps⟩
    | .error e =>
      let total2 := total + cfg.maxAttempts
      match e with
      | .provider pe =>
        if pe.failover then
          match getNextProvider ps2 name now with
          | (none, ps3) => ⟨.error .allFailed, ps3, r.trace, r.sleeps⟩
          | (some nxt, ps3) =>
            let rest := callLoop behavior cfg now fuel nxt.name ps3 total2
            ⟨rest.res, rest.providers, r.trace ++ rest.trace, r.sleeps ++ rest.sleeps⟩
        else
          ⟨.error .allFailed, ps2, r.trace, r.sleeps⟩
      | _ => ⟨.error .allFailed, ps2, r.trace, r.sleeps⟩

/-- `ProviderClient.call(requestId, req)`: pick the first healthy provider,
then run the failover loop starting from it with `totalAttempts = 0`. -/
def call (behavior : String → Nat → Except ProviderError String)
    (cfg : RetryConfig) (now : Nat) (fuel : Nat) (ps : List Provider) : CallOut :=
  match getHealthyProvider now ps with
  | (none, ps2) => ⟨.error .noHealthy, ps2, [], []⟩
  | (some p, ps2) => callLoop behavior cfg now fuel p.name ps2 0

end TS

namespace GoSrv

/-- `Orchestrator.calculateBackoff(attemptNumber)` with `rand.Float64()`
passed explicitly as `r ∈ [0,1)`:
`backoff = BaseBackoff * 2^(attempt-1)`, additive jitter
`backoff * r * 0.5`, and the `MaxBackoff` cap applied to the jittered total;
the final `time.Duration(total)` conversion truncates the (non-negative)
float, hence `Int.floor`. -/
def calculateBackoff (baseBackoff maxBackoff : ℚ) (attemptNumber : Nat) (r : ℚ) : ℤ :=
  let e := (2 : ℚ) ^ (attemptNumber - 1)
  let backoff := baseBackoff * e
  let jitter := backoff * r * (1 / 2)
  let total := backoff + jitter
  let total := if maxBackoff < total then maxBackoff else total
  Int.floor total

/-- Error taxonomy of `pkg/errors/errors.go` as seen by the orchestrator's
type switch: `retryableErr`/`nonRetryableErr` the two base wrappers;
`providerTimeout` and `providerRateLimit` embed `*RetryableError`;
`circuitBreakerOpen` embeds `*NonRetryableError`; `maxRetriesExceeded`
carries `Attempts`; `noProvider` is the router's
"no provider supports model" error. -/
inductive GoError where
  | retryableErr
  | nonRetryableErr
  | providerTimeout
  | providerRateLimit
  | circuitBreakerOpen
  | maxRetriesExceeded (attempts : Nat)
  | noProvider
  deriving DecidableEq, Repr

/-- `Orchestrator.isRetryable(err)`: the type switch lists exactly
`*RetryableError`, `*ProviderTimeoutError`, `*ProviderRateLimitError` as
retryable; every other concrete type (including `*CircuitBreakerOpenError`)
falls to the default `false`. -/
def isRetryable : GoError → Bool
  | .retryableErr => true
  | .providerTimeout => true
  | .providerRateLimit => true
  | _ => false

/-- The `modelToProvider` map built by `NewProviderRouter` (Go map access on
an absent key yields the empty list, like a nil slice). -/
def lookupModels (modelMap : List (String × List String)) (model : String) : List String :=
  match modelMap.find? (fun e => e.1 = model) with
  | some e => e.2
  | none => []

/-- `ProviderRouter.SelectProvider(req, attemptNumber, previousProvider)`:
error when no provider supports the model; on the first attempt the preferred
provider if named and eligible, else the first eligible; on a retry the first
eligible provider different from the previous one, and — "No alternative, use
same provider" — `eligible[0]` when every eligible name equals the previous
one. -/
def SelectProvider (modelMap : List (String × List String))
    (model preferred : String) (attemptNumber : Nat) (previousProvider : String) :
    Except GoError String :=
  let eligible := lookupModels modelMap model
  if eligible = [] then
    .error .noProvider
  else if attemptNumber = 1 then
    if preferred ≠ "" then
      match eligible.find? (fun p => p = preferred) with
      | some p => .ok p
      | none => .ok (eligible.headD "")
    else
      .ok (eligible.headD "")
  else
    match eligible.find? (fun p => p ≠ previousProvider) with
    | some p => .ok p
    | none => .ok (eligible.headD "")

/-- Raw outcome of the wire call inside `HTTPClient.SendRequest`, before
classification: a 200 with parsed content, a non-200 status, a transport
error whose context deadline fired, or another transport error. -/
inductive WireResult where
  | ok (content : String)
  | status (code : Nat)
  | netTimeout
  | netErr
  deriving DecidableEq, Repr

/-- `HTTPClient.SendRequest`: first consult the circuit breaker — an open
circuit returns `CircuitBreakerOpenError` with no wire call and no failure
recorded.  Otherwise classify the wire outcome, recording a failure on every
error path and a success on 200: deadline → `ProviderTimeoutError`, other
transport error → `RetryableError`, 429 → `ProviderRateLimitError`,
5xx → `RetryableError`, 401 → `NonRetryableError`, any other non-200 →
`NonRetryableError`. -/
def SendRequest (cb : CircuitBreaker) (wire : WireResult) (now : Nat) :
    Except GoError String × CircuitBreaker :=
  let gate := IsOpen cb now
  if gate.1 then
    (.error .circuitBreakerOpen, gate.2)
  else
    let cb := gate.2
    match wire with
    | .ok content => (.ok content, RecordSuccess cb)
    | .netTimeout => (.error .providerTimeout, RecordFailure cb now)
    | .netErr => (.error .retryableErr, RecordFailure cb now)
    | .status code =>
      if code = 429 then
        (.error .providerRateLimit, RecordFailure cb now)
      else if 500 ≤ code then
        (.error .retryableErr, RecordFailure cb now)
      else
        (.error .nonRetryableErr, RecordFailure cb now)

/-- One `models.Attempt` record as the orchestrator appends it. -/
structure GoAttempt where
  attemptNumber : Nat
  provider : String
  status : String
  errorType : Option GoError
  deriving DecidableEq, Repr

/-- `HTTPClient.getCircuitBreaker`: look the provider up in the breaker map,
creating `NewCircuitBreaker(provider, threshold, timeout)` on first use. -/
def getCircuitBreaker (cbs : List (String × CircuitBreaker)) (provider : String)
    (threshold timeout : Nat) : CircuitBreaker × List (String × CircuitBreaker) :=
  match cbs.find? (fun e => e.1 = provider) with
  | some e => (e.2, cbs)
  | none =>
    let cb := NewCircuitBreaker provider threshold timeout
    (cb, cbs ++ [(provider, cb)])

/-- Replace a provider's breaker in the map (first name match). -/
def setCB : List (String × CircuitBreaker) → String → CircuitBreaker →
    List (String × CircuitBreaker)
  | [], _, _ => []
  | e :: es, name, cb =>
    if e.1 = name then
      (name, cb) :: es
    else
      e :: setCB es name cb

/-- Result of `Orchestrator.ExecuteRequest`: the response
(content, `Attempts` field, serving provider) or the terminal error, the
full attempt history, and the breaker map. -/
structure ExecOut where
  res : Except GoError (String × Nat × String)
  attempts : List GoAttempt
  cbs : List (String × CircuitBreaker)
  deriving DecidableEq, Repr

/-- The `for attemptNumber = 1..MaxRetries` loop of
`Orchestrator.ExecuteRequest`, `fuel` counting remaining iterations (entered
with `fuel = MaxRetries`, `attemptNumber = 1`; `fuel = 0` is the loop exit
returning `MaxRetriesExceededError{Attempts: len(attempts)}`).  Each
iteration selects a provider, runs one attempt through `SendRequest`
(`wire provider attemptNumber` is the wire outcome), always appends the
attempt record to the history, returns the response on success with
`Attempts = attemptNumber`, aborts at once when `isRetryable` says false,
and otherwise backs off and loops (the `break` before the last backoff is
the `fuel = 0` recursion exit). -/
def ExecuteRequestLoop (modelMap : List (String × List String))
    (wire : String → Nat → WireResult) (model preferred : String)
    (threshold timeout now : Nat) :
    Nat → Nat → String → List (String × CircuitBreaker) → List GoAttempt → ExecOut
  | 0, _, _, cbs, history => ⟨.error (.maxRetriesExceeded history.length), history, cbs⟩
  | fuel + 1, attemptNumber, lastProvider, cbs, history =>
    match SelectProvider modelMap model preferred attemptNumber lastProvider with
    | .error e => ⟨.error e, history, cbs⟩
    | .ok provider =>
      let got := getCircuitBreaker cbs provider threshold timeout
      let sent := SendRequest got.1 (wire provider attemptNumber) now
      let cbs2 := setCB got.2 provider sent.2
      match sent.1 with
      | .ok content =>
        let history2 := history ++ [⟨attemptNumber, provider, "success", none⟩]
        ⟨.ok (content, attemptNumber, provider), history2, cbs2⟩
      | .error e =>
        let history2 := history ++ [⟨attemptNumber, provider, "failed", some e⟩]
        if isRetryable e = false then
          ⟨.error e, history2, cbs2⟩
        else if fuel = 0 then
          ⟨.error (.maxRetriesExceeded history2.length), history2, cbs2⟩
        else
          ExecuteRequestLoop modelMap wire model preferred threshold timeout now
            fuel (attemptNumber + 1) provider cbs2 history2

/-- `Orchestrator.ExecuteRequest(ctx, req)` over a given breaker map. -/
def ExecuteRequest (modelMap : List (String × List String))
    (wire : String → Nat → WireResult) (model preferred : String)
    (maxRetries threshold timeout now : Nat)
    (cbs : List (String × CircuitBreaker)) : ExecOut :=
  ExecuteRequestLoop modelMap wire model preferred threshold timeout now
    maxRetries 1 "" cbs []

end GoSrv

namespace M6

/-- One observed event of the upstream SSE stream, as seen by the `data:`
line loop of `StreamingProviderClient.streamRequest`: a well-formed data line
(with the parsed `choices[0].delta.content`, `none` when the field is
absent), a data line on which `JSON.parse` throws, the `[DONE]` sentinel,
or the chunk-timeout timer firing (no data within `chunkTimeout`). -/
inductive StreamItem where
  | line (raw : String) (content : Option String)
  | malformedLine (raw : String)
  | doneLine
  | stall
  deriving DecidableEq, Repr

/-- One write on the client response, per the callbacks installed by
`createStreamingHandler`: `onChunk` writes the raw data, `onDone` writes the
`[DONE]` sentinel, `onError` writes an error event carrying the message and
the `partial_content` buffer; `endResp` is `res.end()`. -/
inductive WriteEvt where
  | chunk (raw : String)
  | doneMark
  | errorEvent (message : String) (bufAtError : String)
  | endResp
  deriving DecidableEq, Repr

/-- Mutable state of the relay loop: `buf` is the `partialContent`
accumulator, `forwarded` the (raw, delta) pairs already passed to `onChunk`,
`writes` the client-visible write log. -/
structure RelaySt where
  buf : String
  forwarded : List (String × String)
  writes : List WriteEvt
  deriving DecidableEq, Repr

/-- Terminal state of the stream: sentinel/EOF reached, stall, or malformed
chunk. -/
inductive RelayOutcome where
  | completed
  | stalled
  | malformed
  deriving DecidableEq, Repr

/-- Result of the relay: outcome, final `partialContent` buffer, the
forwarded (raw, delta) pairs, and the write log. -/
structure RelayOut where
  outcome : RelayOutcome
  buf : String
  forwarded : List (String × String)
  writes : List WriteEvt
  deriving DecidableEq, Repr

/-- Processing of one well-formed data line: `content` truthy (present and
non-empty) appends the delta to `partialContent` and forwards the raw data
via `onChunk`; a missing or empty delta is skipped entirely. -/
def relayStep (s : RelaySt) (raw : String) (content : Option String) : RelaySt :=
  match content with
  | some c =>
    if c = "" then
      s
    else
      ⟨s.buf ++ c, s.forwarded ++ [(raw, c)], s.writes ++ [.chunk raw]⟩
  | none => s

/-- The relay loop of `streamRequest` with the `createStreamingHandler`
callbacks: `[DONE]` (or upstream EOF) invokes `onDone`; a malformed line
invokes `onError('Malformed chunk', partialContent)` and returns; a stall
aborts upstream and invokes `onError('Stream stalled - chunk timeout',
partialContent)`; each of these ends the response, so nothing after the
terminal item is consumed. -/
def relayGo (s : RelaySt) : List StreamItem → RelayOut
  | [] =>
    ⟨.completed, s.buf, s.forwarded, s.writes ++ [.doneMark, .endResp]⟩
  | .doneLine :: _ =>
    ⟨.completed, s.buf, s.forwarded, s.writes ++ [.doneMark, .endResp]⟩
  | .malformedLine _ :: _ =>
    ⟨.malformed, s.buf, s.forwarded,
      s.writes ++ [.errorEvent "Malformed chunk" s.buf, .endResp]⟩
  | .stall :: _ =>
    ⟨.stalled, s.buf, s.forwarded,
      s.writes ++ [.errorEvent "Stream stalled - chunk timeout" s.buf, .endResp]⟩
  | .line raw content :: rest => relayGo (relayStep s raw content) rest

/-- `streamRequest` on a fresh request: empty buffer, nothing forwarded. -/
def streamRequest (items : List StreamItem) : RelayOut :=
  relayGo ⟨"", [], []⟩ items

end M6

/-- Go breaker that has been open since t=5000 with a 10000ms reset timeout. -/
def cbOpenGo : GoSrv.CircuitBreaker :=
  { name := "openai", threshold := 3, timeout := 10000, state := .open,
    failureCount := 3, successCount := 0, lastFailureTime := 5000, openedAt := 5000 }

/-- Milestone breaker that has been open since its last failure at t=5000
with a 30000ms reset timeout. -/
def cbOpenTS : TS.CircuitBreaker :=
  { name := "openai", failureThreshold := 3, resetTimeout := 30000,
    state := .open, consecutiveFails := 3, lastFailure := 5000 }

/-- Go breaker closed with two accumulated failures. -/
def cbClosed2Go : GoSrv.CircuitBreaker :=
  { name := "openai", threshold := 5, timeout := 60000, state := .closed,
    failureCount := 2, successCount := 0, lastFailureTime := 100, openedAt := 0 }

/-- The milestone router's first configured provider, fresh breaker. -/
def pOpenai : TS.Provider :=
  { name := "openai", url := "http://localhost:8001",
    circuit := TS.CircuitBreaker.mk0 "openai" 3 30000 }

/-- The milestone router's second configured provider, fresh breaker. -/
def pAnthropic : TS.Provider :=
  { name := "anthropic", url := "http://localhost:8002",
    circuit := TS.CircuitBreaker.mk0 "anthropic" 3 30000 }

/-- Retry configuration of the milestone client defaults:
3 attempts, 1000ms base delay, 10000ms max delay. -/
def cfg3 : TS.RetryConfig := ⟨3, 1000, 10000⟩

/-- Behavior in which openai always answers 429 and anthropic succeeds. -/
def behC3 : String → Nat → Except TS.ProviderError String :=
  fun p _ => if p = "openai" then .error TS.ProviderError.rateLimitError else .ok "hi"

/-- Behavior in which every provider always answers 429. -/
def behC8 : String → Nat → Except TS.ProviderError String :=
  fun _ _ => .error TS.ProviderError.rateLimitError

namespace TS

/-- An attempt outcome that drives the retry loop onward: an error marked
retryable and not failover. -/
def retryableOnly : Except ProviderError String → Prop
  | .error e => e.retryable = true ∧ e.failover = false
  | .ok _ => False

end TS

/-- State of the openai provider after its one recorded rate-limit failure. -/
def pOpenai1 : TS.Provider :=
  { name := "openai", url := "http://localhost:8001",
    circuit := { name := "openai", failureThreshold := 3, resetTimeout := 30000,
                 state := .closed, consecutiveFails := 1, lastFailure := 1000 } }

/-- Model map in which gpt-4 is served by openai then anthropic. -/
def modelMapC9 : List (String × List String) := [("gpt-4", ["openai", "anthropic"])]

/-- Breaker map in which openai's circuit is open and not yet elapsed. -/
def cbsC9 : List (String × GoSrv.CircuitBreaker) := [("openai", cbOpenGo)]

/-- Wire behavior in which anthropic would succeed. -/
def wireC9 : String → Nat → GoSrv.WireResult :=
  fun p _ => if p = "anthropic" then .ok "fine" else .status 500

/-- The spec's scenario: two forwarded chunks, then the upstream stalls. -/
def itemsC7 : List M6.StreamItem :=
  [.line "chunk1" (some "Hello"), .line "chunk2" (some " world"), .stall]

namespace M6

/-- Relay loop invariant: the buffer is the concatenation of the forwarded
deltas, and the write log is exactly one chunk write per forwarded chunk. -/
def StateOk (s : RelaySt) : Prop :=
  s.buf = String.join (s.forwarded.map Prod.snd) ∧
  s.writes = s.forwarded.map (fun f => WriteEvt.chunk f.1)

end M6

namespace TS

theorem recordFailure_fields (cb : CircuitBreaker) (now : Nat) :
    (recordFailure cb now).consecutiveFails = cb.consecutiveFails + 1 ∧
    (recordFailure cb now).failureThreshold = cb.failureThreshold := by
  simp only [recordFailure]
  split <;> exact ⟨rfl, rfl⟩

theorem recordFailure_open_absorbing (cb : CircuitBreaker) (now : Nat)
    (h : cb.state = .open) : (recordFailure cb now).state = .open := by
  simp only [recordFailure]
  split
  · rfl
  · exact h

theorem recordFailure_reaches (cb : CircuitBreaker) (now : Nat)
    (h : cb.failureThreshold ≤ cb.consecutiveFails + 1) :
    (recordFailure cb now).state = .open := by
  simp only [recordFailure]
  rw [if_pos h]

theorem recordFailureIter_open_absorbing (now : Nat) :
    ∀ (n : Nat) (cb : CircuitBreaker), cb.state = .open →
      (recordFailureIter cb now n).state = .open
  | 0, _, h => h
  | n + 1, cb, h =>
    recordFailureIter_open_absorbing now n _ (recordFailure_open_absorbing cb now h)

theorem recordFailureIter_opens (now : Nat) :
    ∀ (n : Nat) (cb : CircuitBreaker), 1 ≤ n →
      cb.failureThreshold ≤ cb.consecutiveFails + n →
      (recordFailureIter cb now n).state = .open := by
  intro n
  induction n with
  | zero => intro cb h; omega
  | succ m ih =>
    intro cb _ hthr
    show (recordFailureIter (recordFailure cb now) now m).state = .open
    rcases Nat.eq_zero_or_pos m with hm | hm
    · subst hm
      exact recordFailure_reaches cb now (by omega)
    · rcases le_or_lt cb.failureThreshold (cb.consecutiveFails + 1) with hr | hr
      · exact recordFailureIter_open_absorbing now m _ (recordFailure_reaches cb now hr)
      · refine ih _ hm ?_
        rw [(recordFailure_fields cb now).1, (recordFailure_fields cb now).2]
        omega

theorem canExecute_open_rejects (cb : CircuitBreaker) (now : Nat)
    (hs : cb.state = .open) (ht : now ≤ cb.lastFailure + cb.resetTimeout) :
    (canExecute cb now).1 = false ∧ (canExecute cb now).2 = cb := by
  simp only [canExecute, hs]
  rw [if_neg (by omega)]
  exact ⟨rfl, rfl⟩

end TS

namespace GoSrv

theorem RecordFailure_fields (cb : CircuitBreaker) (now : Nat) :
    (RecordFailure cb now).failureCount = cb.failureCount + 1 ∧
    (RecordFailure cb now).threshold = cb.threshold := by
  simp only [RecordFailure]
  split
  · exact ⟨rfl, rfl⟩
  · split
    · split <;> exact ⟨rfl, rfl⟩
    · exact ⟨rfl, rfl⟩

theorem RecordFailure_open_absorbing (cb : CircuitBreaker) (now : Nat)
    (h : cb.state = .open) : (RecordFailure cb now).state = .open := by
  simp only [RecordFailure]
  rw [if_neg (by rw [h]; exact fun hc => nomatch hc),
      if_neg (by rw [h]; exact fun hc => nomatch hc)]
  exact h

theorem RecordFailure_closed_reaches (cb : CircuitBreaker) (now : Nat)
    (hs : cb.state = .closed) (h : cb.threshold ≤ cb.failureCount + 1) :
    (RecordFailure cb now).state = .open := by
  simp only [RecordFailure]
  rw [if_neg (by rw [hs]; exact fun hc => nomatch hc), if_pos hs, if_pos h]

theorem RecordFailure_closed_stays (cb : CircuitBreaker) (now : Nat)
    (hs : cb.state = .closed) (h : cb.failureCount + 1 < cb.threshold) :
    (RecordFailure cb now).state = .closed := by
  simp only [RecordFailure]
  rw [if_neg (by rw [hs]; exact fun hc => nomatch hc), if_pos hs,
      if_neg (by omega)]
  exact hs

theorem RecordFailureIter_open_absorbing (now : Nat) :
    ∀ (n : Nat) (cb : CircuitBreaker), cb.state = .open →
      (RecordFailureIter cb now n).state = .open
  | 0, _, h => h
  | n + 1, cb, h =>
    RecordFailureIter_open_absorbing now n _ (RecordFailure_open_absorbing cb now h)

theorem RecordFailureIter_opens (now : Nat) :
    ∀ (n : Nat) (cb : CircuitBreaker), cb.state = .closed → 1 ≤ n →
      cb.threshold ≤ cb.failureCount + n →
      (RecordFailureIter cb now n).state = .open := by
  intro n
  induction n with
  | zero => intro cb hs h; omega
  | succ m ih =>
    intro cb hs _ hthr
    show (RecordFailureIter (RecordFailure cb now) now m).state = .open
    rcases le_or_lt cb.threshold (cb.failureCount + 1) with hr | hr
    · exact RecordFailureIter_open_absorbing now m _
        (RecordFailure_closed_reaches cb now hs hr)
    · rcases Nat.eq_zero_or_pos m with hm | hm
      · omega
      · refine ih _ (RecordFailure_closed_stays cb now hs hr) hm ?_
        rw [(RecordFailure_fields cb now).1, (RecordFailure_fields cb now).2]
        omega

theorem IsOpen_open_rejects (cb : CircuitBreaker) (now : Nat)
    (hs : cb.state = .open) (ht : now ≤ cb.openedAt + cb.timeout) :
    (IsOpen cb now).1 = true ∧ (IsOpen cb now).2 = cb := by
  simp only [IsOpen]
  rw [if_pos hs, if_neg (by omega)]
  exact ⟨rfl, rfl⟩

end GoSrv

/-- C1: the claim says every canExecute call other than the winning one
during the post-elapse window returns false (single-probe admission).  On the
Go breaker, after the winning call moves the circuit to half-open, the very
next admission check in the same window also reports not-open — the second
caller is admitted as well, so single-probe admission fails. -/
theorem c1_counterexample_second_probe_admitted :
    (GoSrv.IsOpen cbOpenGo 20000).1 = false ∧
    ((GoSrv.IsOpen cbOpenGo 20000).2).state = GoSrv.CircuitState.halfOpen ∧
    (GoSrv.IsOpen (GoSrv.IsOpen cbOpenGo 20000).2 20000).1 = false := by
  decide

/-- C1 amended: once the reset timeout has elapsed, the first admission check
transitions the Go breaker Open→HalfOpen (the milestone breaker Open→Closed)
and admits its caller, but every subsequent check is admitted too — neither
implementation rejects concurrent callers during that window, so there is no
single-probe guarantee. -/
theorem c1_amended_probe_admission_not_single :
    (∀ (cb : GoSrv.CircuitBreaker) (now : Nat),
        cb.state = GoSrv.CircuitState.open → cb.timeout < now - cb.openedAt →
        (GoSrv.IsOpen cb now).1 = false ∧
        ((GoSrv.IsOpen cb now).2).state = GoSrv.CircuitState.halfOpen ∧
        (∀ m : Nat, (GoSrv.IsOpen (GoSrv.IsOpen cb now).2 m).1 = false)) ∧
    (∀ (cb : TS.CircuitBreaker) (now : Nat),
        cb.state = TS.CState.open → cb.resetTimeout < now - cb.lastFailure →
        (TS.canExecute cb now).1 = true ∧
        ((TS.canExecute cb now).2).state = TS.CState.closed ∧
        (∀ m : Nat, (TS.canExecute (TS.canExecute cb now).2 m).1 = true)) := by
  constructor
  · intro cb now hs ht
    simp [GoSrv.IsOpen, hs, ht]
  · intro cb now hs ht
    simp [TS.canExecute, hs, ht]

/-- Closed instance of the amended C1 statement. -/
theorem c1_amended_witness :
    (GoSrv.IsOpen cbOpenGo 20000).1 = false ∧ (TS.canExecute cbOpenTS 40000).1 = true :=
  ⟨(c1_amended_probe_admission_not_single.1 cbOpenGo 20000 rfl (by decide)).1,
   (c1_amended_probe_admission_not_single.2 cbOpenTS 40000 rfl (by decide)).1⟩

/-- C5: the claim says recordSuccess resets the consecutive-failure count to
0 in every circuit state.  The Go `RecordSuccess` on a closed breaker with
two failures only decrements the count to 1. -/
theorem c5_counterexample_success_only_decrements :
    (GoSrv.RecordSuccess cbClosed2Go).failureCount = 1 ∧
    ¬ (GoSrv.RecordSuccess cbClosed2Go).failureCount = 0 := by
  decide

/-- C5 amended: the milestone `recordSuccess` clears the count to 0 in every
state (and never changes the state); the Go `RecordSuccess` clears the count
to 0 only from HalfOpen (transitioning to Closed) — while Closed it merely
decrements a positive count by one, and while Open it leaves the count and
state untouched. -/
theorem c5_amended_success_reset_behavior :
    (∀ cb : TS.CircuitBreaker,
        (TS.recordSuccess cb).consecutiveFails = 0 ∧
        (TS.recordSuccess cb).state = cb.state) ∧
    (∀ cb : GoSrv.CircuitBreaker,
        (GoSrv.RecordSuccess cb).failureCount =
          (match cb.state with
           | GoSrv.CircuitState.halfOpen => 0
           | GoSrv.CircuitState.closed => cb.failureCount - 1
           | GoSrv.CircuitState.open => cb.failureCount) ∧
        (GoSrv.RecordSuccess cb).state =
          (match cb.state with
           | GoSrv.CircuitState.halfOpen => GoSrv.CircuitState.closed
           | GoSrv.CircuitState.closed => GoSrv.CircuitState.closed
           | GoSrv.CircuitState.open => GoSrv.CircuitState.open)) := by
  constructor
  · intro cb
    exact ⟨rfl, rfl⟩
  · intro cb
    cases h : cb.state <;> simp [GoSrv.RecordSuccess, h]
    split <;> simp_all

/-- C6: reaching `failureThreshold` consecutive recorded failures opens the
circuit, and while the circuit is open with the reset interval not yet
elapsed every admission check rejects the caller, in both the milestone
breaker (`recordFailure`/`canExecute`) and the Go breaker
(`RecordFailure`/`IsOpen`, whose `true` means the request is skipped). -/
theorem c6_threshold_opens_and_open_rejects :
    (∀ (cb : TS.CircuitBreaker) (now n : Nat), 1 ≤ n →
        cb.failureThreshold ≤ cb.consecutiveFails + n →
        (TS.recordFailureIter cb now n).state = TS.CState.open) ∧
    (∀ (cb : TS.CircuitBreaker) (now : Nat), cb.state = TS.CState.open →
        now ≤ cb.lastFailure + cb.resetTimeout →
        (TS.canExecute cb now).1 = false) ∧
    (∀ (cb : GoSrv.CircuitBreaker) (now n : Nat),
        cb.state = GoSrv.CircuitState.closed → 1 ≤ n →
        cb.threshold ≤ cb.failureCount + n →
        (GoSrv.RecordFailureIter cb now n).state = GoSrv.CircuitState.open) ∧
    (∀ (cb : GoSrv.CircuitBreaker) (now : Nat),
        cb.state = GoSrv.CircuitState.open → now ≤ cb.openedAt + cb.timeout →
        (GoSrv.IsOpen cb now).1 = true) := by
  refine ⟨?_, ?_, ?_, ?_⟩
  · intro cb now n h1 h2
    exact TS.recordFailureIter_opens now n cb h1 h2
  · intro cb now hs ht
    exact (TS.canExecute_open_rejects cb now hs ht).1
  · intro cb now n hs h1 h2
    exact GoSrv.RecordFailureIter_opens now n cb hs h1 h2
  · intro cb now hs ht
    exact (GoSrv.IsOpen_open_rejects cb now hs ht).1

/-- Closed instance of C6: three failures on a fresh breaker with threshold 3
open the circuit, and the open circuit rejects within the reset window. -/
theorem c6_threshold_witness :
    (TS.recordFailureIter (TS.CircuitBreaker.mk0 "openai" 3 30000) 1000 3).state
        = TS.CState.open ∧
    (TS.canExecute cbOpenTS 20000).1 = false ∧
    (GoSrv.RecordFailureIter (GoSrv.NewCircuitBreaker "openai" 3 10000) 1000 3).state
        = GoSrv.CircuitState.open ∧
    (GoSrv.IsOpen cbOpenGo 10000).1 = true :=
  ⟨c6_threshold_opens_and_open_rejects.1 _ 1000 3 (by decide) (by decide),
   c6_threshold_opens_and_open_rejects.2.1 cbOpenTS 20000 rfl (by decide),
   c6_threshold_opens_and_open_rejects.2.2.1 _ 1000 3 rfl (by decide) (by decide),
   c6_threshold_opens_and_open_rejects.2.2.2 cbOpenGo 10000 rfl (by decide)⟩

/-- C2: the claim says that once every eligible provider has been excluded or
tried, the router returns none instead of re-selecting one.  The Go
`SelectProvider`, asked for a retry when the only eligible provider is the
one just tried, returns that same provider again instead of an error; and
the milestone `getNextProvider` wraps around: failing over from the second
provider it returns the first one, which the request already used. -/
theorem c2_counterexample_router_reselects :
    GoSrv.SelectProvider [("gpt-4", ["openai"])] "gpt-4" "" 2 "openai"
        = Except.ok "openai" ∧
    (TS.getNextProvider [pOpenai, pAnthropic] "anthropic" 1000).1 = some pOpenai := by
  decide

/-- C2 amended: `SelectProvider` answers `noProvider` exactly when no
configured provider supports the model; when the only eligible provider
equals the one previously tried, a retry re-selects it (`eligible[0]`)
instead of returning none; and `getNextProvider` wraps around to a provider
listed before the current one whenever its circuit admits execution. -/
theorem c2_amended_router_fallback :
    (∀ (modelMap : List (String × List String)) (model preferred prev : String)
        (attemptNumber : Nat),
        (GoSrv.SelectProvider modelMap model preferred attemptNumber prev
            = Except.error GoSrv.GoError.noProvider)
          ↔ GoSrv.lookupModels modelMap model = []) ∧
    (∀ (modelMap : List (String × List String)) (model preferred prev : String)
        (attemptNumber : Nat),
        attemptNumber ≠ 1 →
        GoSrv.lookupModels modelMap model ≠ [] →
        (∀ p ∈ GoSrv.lookupModels modelMap model, p = prev) →
        GoSrv.SelectProvider modelMap model preferred attemptNumber prev
          = Except.ok prev) ∧
    (∀ (p q : TS.Provider) (current : String) (now : Nat),
        p.name ≠ current → q.name = current →
        (TS.canExecute p.circuit now).1 = true →
        (TS.getNextProvider [p, q] current now).1
          = some { p with circuit := (TS.canExecute p.circuit now).2 }) := by
  refine ⟨?_, ?_, ?_⟩
  · intro modelMap model preferred prev attemptNumber
    constructor
    · intro h
      by_contra hne
      simp only [GoSrv.SelectProvider] at h
      rw [if_neg hne] at h
      repeat' split at h
      all_goals simp_all
    · intro h
      simp [GoSrv.SelectProvider, h]
  · intro modelMap model preferred prev attemptNumber hn hne hall
    simp only [GoSrv.SelectProvider]
    rw [if_neg hne, if_neg hn, List.find?_eq_none.mpr (by simpa using hall)]
    cases he : GoSrv.lookupModels modelMap model with
    | nil => exact absurd he hne
    | cons a t =>
      have ha : a = prev := hall a (by rw [he]; exact List.mem_cons_self a t)
      simp [he, ha]
  · intro p q current now hp hq hcan
    simp [TS.getNextProvider, TS.nextAfter, TS.nextBefore, hp, hq, hcan]

/-- C3: the claim says the reported total attempt count equals the attempts
actually made on A plus those made on B.  With openai rate-limiting on its
first attempt and anthropic succeeding on its first attempt, the trace shows
2 attempts actually made, but `call` reports `attempts = 4`
(`totalAttempts += maxAttempts` is added for the failed provider regardless
of how many attempts it really received). -/
theorem c3_counterexample_reported_attempts_inflated :
    (TS.call behC3 cfg3 1000 10 [pOpenai, pAnthropic]).res = Except.ok ("hi", 4) ∧
    ((TS.call behC3 cfg3 1000 10 [pOpenai, pAnthropic]).trace).length = 2 ∧
    (4 : Nat) ≠ 2 := by
  decide

/-- C8: the claim says a provider that failed with a rate limit is never
retried for that request.  With both providers rate-limiting (threshold 3),
the failover loop wraps around: openai is attempted at trace index 0, fails
with the rate limit, and is attempted again at trace index 2 of the same
request. -/
theorem c8_counterexample_rate_limited_provider_retried :
    ((TS.call behC8 cfg3 1000 10 [pOpenai, pAnthropic]).trace).get? 0
        = some ⟨"openai", 1, Except.error TS.ProviderError.rateLimitError⟩ ∧
    ((TS.call behC8 cfg3 1000 10 [pOpenai, pAnthropic]).trace).get? 2
        = some ⟨"openai", 1, Except.error TS.ProviderError.rateLimitError⟩ := by
  decide

namespace TS

theorem callWithRetryGo_failover (behavior : String → Nat → Except ProviderError String)
    (name : String) (now : Nat) (ek : ProviderError) (hf : ek.failover = true) :
    ∀ (j a f : Nat) (cb : CircuitBreaker), j < f →
      (∀ i, i < j → retryableOnly (behavior name (a + i))) →
      behavior name (a + j) = Except.error ek →
      callWithRetryGo behavior name now f a cb =
        ⟨Except.error (ClientErr.provider ek), recordFailureIter cb now (j + 1),
         (List.range' a (j + 1)).map (fun i => ⟨name, i, behavior name i⟩),
         List.range' a j⟩ := by
  intro j
  induction j with
  | zero =>
    intro a f cb hjf hprev hk
    obtain ⟨g, rfl⟩ : ∃ g, f = g + 1 := ⟨f - 1, by omega⟩
    rw [Nat.add_zero] at hk
    simp [callWithRetryGo, hk, hf, recordFailureIter, List.range']
  | succ m ih =>
    intro a f cb hjf hprev hk
    obtain ⟨g, rfl⟩ : ∃ g, f = g + 1 := ⟨f - 1, by omega⟩
    have h0 : retryableOnly (behavior name a) := by
      have := hprev 0 (by omega)
      rwa [Nat.add_zero] at this
    cases hb : behavior name a with
    | ok c => rw [hb] at h0; exact absurd h0 (by simp [retryableOnly])
    | error e =>
      rw [hb] at h0
      obtain ⟨hr, hnf⟩ : e.retryable = true ∧ e.failover = false := h0
      have hrest := ih (a + 1) g (recordFailure cb now) (by omega)
        (fun i hi => by
          have := hprev (i + 1) (by omega)
          rwa [show a + (i + 1) = a + 1 + i by omega] at this)
        (by rwa [show a + 1 + m = a + (m + 1) by omega])
      have hg : g ≠ 0 := by omega
      simp only [callWithRetryGo, hb, hr, hnf, if_neg hg, hrest]
      rw [if_neg (fun h => nomatch h), if_neg (fun h => nomatch h)]
      simp only [CWROut.mk.injEq]
      refine ⟨trivial, rfl, ?_, ?_⟩
      · conv_rhs => rw [show m + 1 + 1 = (m + 1) + 1 from rfl, List.range'_succ]
        simp [hb]
      · conv_rhs => rw [List.range'_succ]
        rfl

theorem callWithRetryGo_success (behavior : String → Nat → Except ProviderError String)
    (name : String) (now : Nat) (content : String) :
    ∀ (j a f : Nat) (cb : CircuitBreaker), j < f →
      (∀ i, i < j → retryableOnly (behavior name (a + i))) →
      behavior name (a + j) = Except.ok content →
      callWithRetryGo behavior name now f a cb =
        ⟨Except.ok (content, a + j), recordSuccess (recordFailureIter cb now j),
         (List.range' a (j + 1)).map (fun i => ⟨name, i, behavior name i⟩),
         List.range' a j⟩ := by
  intro j
  induction j with
  | zero =>
    intro a f cb hjf hprev hk
    obtain ⟨g, rfl⟩ : ∃ g, f = g + 1 := ⟨f - 1, by omega⟩
    rw [Nat.add_zero] at hk
    simp [callWithRetryGo, hk, recordFailureIter, List.range']
  | succ m ih =>
    intro a f cb hjf hprev hk
    obtain ⟨g, rfl⟩ : ∃ g, f = g + 1 := ⟨f - 1, by omega⟩
    have h0 : retryableOnly (behavior name a) := by
      have := hprev 0 (by omega)
      rwa [Nat.add_zero] at this
    cases hb : behavior name a with
    | ok c => rw [hb] at h0; exact absurd h0 (by simp [retryableOnly])
    | error e =>
      rw [hb] at h0
      obtain ⟨hr, hnf⟩ : e.retryable = true ∧ e.failover = false := h0
      have hrest := ih (a + 1) g (recordFailure cb now) (by omega)
        (fun i hi => by
          have := hprev (i + 1) (by omega)
          rwa [show a + (i + 1) = a + 1 + i by omega] at this)
        (by rwa [show a + 1 + m = a + (m + 1) by omega])
      have hg : g ≠ 0 := by omega
      simp only [callWithRetryGo, hb, hr, hnf, if_neg hg, hrest]
      rw [if_neg (fun h => nomatch h), if_neg (fun h => nomatch h)]
      simp only [CWROut.mk.injEq]
      refine ⟨by rw [show a + 1 + m = a + (m + 1) by omega], rfl, ?_, ?_⟩
      · conv_rhs => rw [show m + 1 + 1 = (m + 1) + 1 from rfl, List.range'_succ]
        simp [hb]
      · conv_rhs => rw [List.range'_succ]
        rfl

theorem callWithRetry_failover (behavior : String → Nat → Except ProviderError String)
    (cfg : RetryConfig) (name : String) (now : Nat) (cb : CircuitBreaker)
    (j : Nat) (ek : ProviderError)
    (hj : j < cfg.maxAttempts)
    (hprev : ∀ i, i < j → retryableOnly (behavior name (1 + i)))
    (hk : behavior name (1 + j) = Except.error ek) (hf : ek.failover = true) :
    callWithRetry behavior cfg name now cb =
      ⟨Except.error (ClientErr.provider ek), recordFailureIter cb now (j + 1),
       (List.range' 1 (j + 1)).map (fun i => ⟨name, i, behavior name i⟩),
       List.range' 1 j⟩ :=
  callWithRetryGo_failover behavior name now ek hf j 1 cfg.maxAttempts cb hj hprev hk

theorem callWithRetry_success (behavior : String → Nat → Except ProviderError String)
    (cfg : RetryConfig) (name : String) (now : Nat) (cb : CircuitBreaker)
    (m : Nat) (content : String)
    (hm : m < cfg.maxAttempts)
    (hprev : ∀ i, i < m → retryableOnly (behavior name (1 + i)))
    (hk : behavior name (1 + m) = Except.ok content) :
    callWithRetry behavior cfg name now cb =
      ⟨Except.ok (content, 1 + m), recordSuccess (recordFailureIter cb now m),
       (List.range' 1 (m + 1)).map (fun i => ⟨name, i, behavior name i⟩),
       List.range' 1 m⟩ :=
  callWithRetryGo_success behavior name now content m 1 cfg.maxAttempts cb hm hprev hk

theorem callLoop_failover_step (behavior : String → Nat → Except ProviderError String)
    (cfg : RetryConfig) (now fuel total : Nat) (name : String)
    (ps ps3 : List Provider) (j : Nat) (ek : ProviderError) (nxt : Provider)
    (hj : j < cfg.maxAttempts)
    (hprev : ∀ i, i < j → retryableOnly (behavior name (1 + i)))
    (hk : behavior name (1 + j) = Except.error ek)
    (hf : ek.failover = true)
    (hnext : getNextProvider
        (setCircuit ps name (recordFailureIter (getCircuit ps name) now (j + 1)))
        name now = (some nxt, ps3)) :
    callLoop behavior cfg now (fuel + 1) name ps total =
      ⟨(callLoop behavior cfg now fuel nxt.name ps3 (total + cfg.maxAttempts)).res,
       (callLoop behavior cfg now fuel nxt.name ps3 (total + cfg.maxAttempts)).providers,
       (List.range' 1 (j + 1)).map (fun i => ⟨name, i, behavior name i⟩)
         ++ (callLoop behavior cfg now fuel nxt.name ps3 (total + cfg.maxAttempts)).trace,
       List.range' 1 j
         ++ (callLoop behavior cfg now fuel nxt.name ps3 (total + cfg.maxAttempts)).sleeps⟩ := by
  have hcwr := callWithRetry_failover behavior cfg name now (getCircuit ps name) j ek
    hj hprev hk hf
  simp only [callLoop, hcwr, hf, if_true]
  rw [hnext]

theorem callWithRetryGo_trace_head (behavior : String → Nat → Except ProviderError String)
    (name : String) (now : Nat) (f a : Nat) (cb : CircuitBreaker) (hf : 1 ≤ f) :
    ((callWithRetryGo behavior name now f a cb).trace).head?
      = some ⟨name, a, behavior name a⟩ := by
  obtain ⟨g, rfl⟩ : ∃ g, f = g + 1 := ⟨f - 1, by omega⟩
  cases hb : behavior name a with
  | ok c => simp [callWithRetryGo, hb]
  | error e =>
    by_cases h1 : e.failover <;> by_cases h2 : e.retryable <;>
      simp [callWithRetryGo, hb, h1, h2]

theorem callLoop_first_attempt (behavior : String → Nat → Except ProviderError String)
    (cfg : RetryConfig) (now total : Nat) (name : String) (ps : List Provider)
    (fuel : Nat) (hfuel : 1 ≤ fuel) (hmax : 1 ≤ cfg.maxAttempts) :
    ((callLoop behavior cfg now fuel name ps total).trace).head?
      = some ⟨name, 1, behavior name 1⟩ := by
  obtain ⟨g, rfl⟩ : ∃ g, fuel = g + 1 := ⟨fuel - 1, by omega⟩
  have hh := callWithRetryGo_trace_head behavior name now cfg.maxAttempts 1
    (getCircuit ps name) hmax
  simp only [callLoop, callWithRetry]
  generalize hR : callWithRetryGo behavior name now cfg.maxAttempts 1
    (getCircuit ps name) = r at hh ⊢
  cases htr : r.trace with
  | nil => rw [htr] at hh; simp at hh
  | cons t ts =>
    rw [htr] at hh
    simp only [List.head?_cons, Option.some.injEq] at hh
    repeat' split
    all_goals simp_all

end TS

/-- C8 amended: a failover-classified (rate-limit) failure at attempt `j+1`
ends the provider's retry loop at once — the trace records exactly attempts
`1..j+1` on that provider and a backoff sleep only after each of the `j`
leading retryable attempts, none after the failover failure — and the loop
continues with the provider `getNextProvider` returns; on any provider a
fresh `callWithRetry` always begins with attempt number 1.  The claim's
stronger clause that the rate-limited provider is *never* attempted again in
the same request fails (wraparound can re-select it; see the
counterexample). -/
theorem c8_amended_rate_limit_failover_immediate :
    (∀ (behavior : String → Nat → Except TS.ProviderError String)
        (cfg : TS.RetryConfig) (now fuel total j : Nat) (name : String)
        (ps ps3 : List TS.Provider) (ek : TS.ProviderError) (nxt : TS.Provider),
        j < cfg.maxAttempts →
        (∀ i, i < j → TS.retryableOnly (behavior name (1 + i))) →
        behavior name (1 + j) = Except.error ek →
        ek.failover = true →
        TS.getNextProvider
            (TS.setCircuit ps name
              (TS.recordFailureIter (TS.getCircuit ps name) now (j + 1)))
            name now = (some nxt, ps3) →
        TS.callLoop behavior cfg now (fuel + 1) name ps total =
          ⟨(TS.callLoop behavior cfg now fuel nxt.name ps3 (total + cfg.maxAttempts)).res,
           (TS.callLoop behavior cfg now fuel nxt.name ps3 (total + cfg.maxAttempts)).providers,
           (List.range' 1 (j + 1)).map (fun i => ⟨name, i, behavior name i⟩)
             ++ (TS.callLoop behavior cfg now fuel nxt.name ps3 (total + cfg.maxAttempts)).trace,
           List.range' 1 j
             ++ (TS.callLoop behavior cfg now fuel nxt.name ps3
                  (total + cfg.maxAttempts)).sleeps⟩) ∧
    (∀ (behavior : String → Nat → Except TS.ProviderError String)
        (cfg : TS.RetryConfig) (now total fuel : Nat) (name : String)
        (ps : List TS.Provider), 1 ≤ fuel → 1 ≤ cfg.maxAttempts →
        ((TS.callLoop behavior cfg now fuel name ps total).trace).head?
          = some ⟨name, 1, behavior name 1⟩) := by
  constructor
  · intro behavior cfg now fuel total j name ps ps3 ek nxt hj hprev hk hf hnext
    exact TS.callLoop_failover_step behavior cfg now fuel total name ps ps3 j ek nxt
      hj hprev hk hf hnext
  · intro behavior cfg now total fuel name ps h1 h2
    exact TS.callLoop_first_attempt behavior cfg now total name ps fuel h1 h2

/-- Closed instance of the amended C8 statement: openai rate-limits its first
attempt, the loop moves to anthropic with no sleep, and the continuation's
first trace entry is attempt 1 on anthropic. -/
theorem c8_amended_witness :
    TS.callLoop behC3 cfg3 1000 6 "openai" [pOpenai, pAnthropic] 0 =
      ⟨(TS.callLoop behC3 cfg3 1000 5 "anthropic" [pOpenai1, pAnthropic] 3).res,
       (TS.callLoop behC3 cfg3 1000 5 "anthropic" [pOpenai1, pAnthropic] 3).providers,
       (List.range' 1 1).map (fun i => ⟨"openai", i, behC3 "openai" i⟩)
         ++ (TS.callLoop behC3 cfg3 1000 5 "anthropic" [pOpenai1, pAnthropic] 3).trace,
       List.range' 1 0
         ++ (TS.callLoop behC3 cfg3 1000 5 "anthropic" [pOpenai1, pAnthropic] 3).sleeps⟩ ∧
    ((TS.callLoop behC3 cfg3 1000 5 "anthropic" [pOpenai1, pAnthropic] 3).trace).head?
      = some ⟨"anthropic", 1, behC3 "anthropic" 1⟩ :=
  ⟨c8_amended_rate_limit_failover_immediate.1 behC3 cfg3 1000 5 0 0 "openai"
      [pOpenai, pAnthropic] [pOpenai1, pAnthropic] TS.ProviderError.rateLimitError
      pAnthropic (by decide) (fun i hi => absurd hi (by omega)) (by decide) (by decide)
      (by decide),
   c8_amended_rate_limit_failover_immediate.2 behC3 cfg3 1000 3 5 "anthropic"
      [pOpenai1, pAnthropic] (by decide) (by decide)⟩

/-- C3 amended: when provider A fails over after `j+1` actual attempts (j
leading retryable failures, then a failover error, `j+1 ≤ maxAttempts`) and
the provider the router selects next succeeds at its attempt `m+1`, the
response reports `total + maxAttempts + (m+1)` attempts while the trace shows
`(j+1) + (m+1)` attempts actually made; the reported figure equals the actual
one exactly when A really used all `maxAttempts` attempts (`j+1 =
maxAttempts`), because `call` adds the full `maxAttempts` for a failed
provider regardless of the attempts it received. -/
theorem c3_amended_attempts_accounting
    (behavior : String → Nat → Except TS.ProviderError String)
    (cfg : TS.RetryConfig) (now fuel total j m : Nat) (name : String)
    (ps ps3 : List TS.Provider) (ek : TS.ProviderError) (content : String)
    (nxt : TS.Provider)
    (hj : j < cfg.maxAttempts)
    (hprevA : ∀ i, i < j → TS.retryableOnly (behavior name (1 + i)))
    (hkA : behavior name (1 + j) = Except.error ek)
    (hfA : ek.failover = true)
    (hnext : TS.getNextProvider
        (TS.setCircuit ps name
          (TS.recordFailureIter (TS.getCircuit ps name) now (j + 1)))
        name now = (some nxt, ps3))
    (hm : m < cfg.maxAttempts)
    (hprevB : ∀ i, i < m → TS.retryableOnly (behavior nxt.name (1 + i)))
    (hkB : behavior nxt.name (1 + m) = Except.ok content) :
    (TS.callLoop behavior cfg now (fuel + 1 + 1) name ps total).res
        = Except.ok (content, total + cfg.maxAttempts + (1 + m)) ∧
    ((TS.callLoop behavior cfg now (fuel + 1 + 1) name ps total).trace).length
        = (1 + j) + (1 + m) ∧
    (total + cfg.maxAttempts + (1 + m) = total + ((1 + j) + (1 + m))
        ↔ cfg.maxAttempts = 1 + j) := by
  have hstep := TS.callLoop_failover_step behavior cfg now (fuel + 1) total name ps ps3
    j ek nxt hj hprevA hkA hfA hnext
  have hB := TS.callWithRetry_success behavior cfg nxt.name now
    (TS.getCircuit ps3 nxt.name) m content hm hprevB hkB
  rw [hstep]
  simp only [TS.callLoop, hB]
  refine ⟨trivial, ?_, by omega⟩
  simp only [List.length_append, List.length_map, List.length_range']
  omega

/-- Closed instance of the amended C3 statement: openai rate-limits once,
anthropic succeeds at its first attempt, the report says 4 attempts, the
trace 2, and 4 = 2 would require maxAttempts = 1. -/
theorem c3_amended_witness :
    (TS.callLoop behC3 cfg3 1000 6 "openai" [pOpenai, pAnthropic] 0).res
        = Except.ok ("hi", 4) ∧
    ((TS.callLoop behC3 cfg3 1000 6 "openai" [pOpenai, pAnthropic] 0).trace).length = 2 ∧
    ((4 : Nat) = 2 ↔ (3 : Nat) = 1) :=
  c3_amended_attempts_accounting behC3 cfg3 1000 4 0 0 0 "openai"
    [pOpenai, pAnthropic] [pOpenai1, pAnthropic] TS.ProviderError.rateLimitError "hi"
    pAnthropic (by decide) (fun i hi => absurd hi (by omega)) (by decide) (by decide)
    (by decide) (by decide) (fun i hi => absurd hi (by omega)) (by decide)

/-- C4: the claim says every backoff equals min(base*2^(k-1), maxDelay)
multiplied by a jitter factor in [0.8, 1.2].  The Go orchestrator's
`calculateBackoff` instead adds jitter of up to +50% before capping: at
base=1000, max=10000, k=1, r=0.8 it yields 1400 = 1000 * 1.4, a factor
outside [0.8, 1.2]. -/
theorem c4_counterexample_go_jitter_outside_range :
    GoSrv.calculateBackoff 1000 10000 1 (4 / 5) = 1400 ∧
    (1400 : ℚ) = min ((1000 : ℚ) * 2 ^ (1 - 1)) 10000 * (7 / 5) ∧
    ¬ ((7 : ℚ) / 5 ≤ 6 / 5) := by
  refine ⟨?_, by norm_num, by norm_num⟩
  norm_num [GoSrv.calculateBackoff]

/-- C4 amended: the milestone client's `calculateBackoff` is the floor of
min(base*2^(k-1), maxDelay) times a jitter factor in [0.8, 1.2) — bounded
here by `pre*(4/5) - 1 < result ≤ pre*(6/5)` — and its pre-jitter
(`r = 1/2`, factor exactly 1) waits for base=1000ms, max=10000ms are
1000, 2000, 4000, 8000 ms for k = 1..4.  The Go orchestrator's
`calculateBackoff` instead computes floor(min(base*2^(k-1)*(1 + r/2),
maxBackoff)): an additive jitter of 0-50% applied before the cap, with the
same pre-jitter (`r = 0`) sequence. -/
theorem c4_amended_backoff_formulas :
    (∀ (base maxd : ℚ) (k : Nat) (r : ℚ), 0 ≤ r → r < 1 → 0 ≤ base → 0 ≤ maxd →
        ((TS.calculateBackoff base maxd k r : ℚ)
            ≤ min (base * 2 ^ (k - 1)) maxd * (6 / 5) ∧
         min (base * 2 ^ (k - 1)) maxd * (4 / 5) - 1
            < (TS.calculateBackoff base maxd k r : ℚ))) ∧
    (∀ (base maxd : ℚ) (k : Nat) (r : ℚ),
        GoSrv.calculateBackoff base maxd k r
          = Int.floor (min (base * 2 ^ (k - 1) * (1 + r * (1 / 2))) maxd)) ∧
    (TS.calculateBackoff 1000 10000 1 (1 / 2) = 1000 ∧
     TS.calculateBackoff 1000 10000 2 (1 / 2) = 2000 ∧
     TS.calculateBackoff 1000 10000 3 (1 / 2) = 4000 ∧
     TS.calculateBackoff 1000 10000 4 (1 / 2) = 8000 ∧
     GoSrv.calculateBackoff 1000 10000 1 0 = 1000 ∧
     GoSrv.calculateBackoff 1000 10000 2 0 = 2000 ∧
     GoSrv.calculateBackoff 1000 10000 3 0 = 4000 ∧
     GoSrv.calculateBackoff 1000 10000 4 0 = 8000) := by
  refine ⟨?_, ?_, ?_⟩
  · intro base maxd k r hr0 hr1 hb0 hm0
    have hpre : (0 : ℚ) ≤ min (base * 2 ^ (k - 1)) maxd := le_min (by positivity) hm0
    have hj1 : (4 : ℚ) / 5 ≤ 1 + (r * (2 / 5) - 1 / 5) := by linarith
    have hj2 : 1 + (r * (2 / 5) - 1 / 5) ≤ (6 : ℚ) / 5 := by linarith
    constructor
    · calc (TS.calculateBackoff base maxd k r : ℚ)
          ≤ min (base * 2 ^ (k - 1)) maxd * (1 + (r * (2 / 5) - 1 / 5)) :=
            Int.floor_le _
        _ ≤ min (base * 2 ^ (k - 1)) maxd * (6 / 5) :=
            mul_le_mul_of_nonneg_left hj2 hpre
    · calc min (base * 2 ^ (k - 1)) maxd * (4 / 5) - 1
          ≤ min (base * 2 ^ (k - 1)) maxd * (1 + (r * (2 / 5) - 1 / 5)) - 1 := by
            have := mul_le_mul_of_nonneg_left hj1 hpre
            linarith
        _ < (TS.calculateBackoff base maxd k r : ℚ) := Int.sub_one_lt_floor _
  · intro base maxd k r
    simp only [GoSrv.calculateBackoff, min_def]
    rcases le_or_lt (base * 2 ^ (k - 1) * (1 + r * (1 / 2))) maxd with h | h
    · rw [if_neg (by nlinarith [h]), if_pos h]
      congr 1
      ring
    · rw [if_pos (by nlinarith [h]), if_neg (by linarith)]
  · refine ⟨?_, ?_, ?_, ?_, ?_, ?_, ?_, ?_⟩ <;> norm_num [TS.calculateBackoff, GoSrv.calculateBackoff]

/-- Closed instance of the amended C4 statement: jitter bounds at r = 0.9 and
the Go formula at k = 2, r = 1/2. -/
theorem c4_amended_witness :
    ((TS.calculateBackoff 1000 10000 1 (9 / 10) : ℚ)
        ≤ min ((1000 : ℚ) * 2 ^ (1 - 1)) 10000 * (6 / 5) ∧
     min ((1000 : ℚ) * 2 ^ (1 - 1)) 10000 * (4 / 5) - 1
        < (TS.calculateBackoff 1000 10000 1 (9 / 10) : ℚ)) ∧
    GoSrv.calculateBackoff 1000 10000 2 (1 / 2)
      = Int.floor (min ((1000 : ℚ) * 2 ^ (2 - 1) * (1 + (1 / 2) * (1 / 2))) 10000) :=
  ⟨c4_amended_backoff_formulas.1 1000 10000 1 (9 / 10) (by norm_num) (by norm_num)
      (by norm_num) (by norm_num),
   c4_amended_backoff_formulas.2.1 1000 10000 2 (1 / 2)⟩

/-- C9: the claim says an open-circuit candidate is skipped at selection
time, its skip is not counted as an Attempt, and the orchestrator moves on to
the next eligible provider.  In the Go orchestrator the selected provider
(openai, circuit open at t=6000, opened t=5000, timeout 10000) produces a
`CircuitBreakerOpenError` that IS appended to the attempt history, and since
`isRetryable` classifies it non-retryable the whole request aborts — even
though eligible anthropic would have succeeded. -/
theorem c9_counterexample_circuit_open_aborts :
    (GoSrv.ExecuteRequest modelMapC9 wireC9 "gpt-4" "" 3 5 10000 6000 cbsC9).res
        = Except.error GoSrv.GoError.circuitBreakerOpen ∧
    ((GoSrv.ExecuteRequest modelMapC9 wireC9 "gpt-4" "" 3 5 10000 6000 cbsC9).attempts).length
        = 1 ∧
    ((GoSrv.ExecuteRequest modelMapC9 wireC9 "gpt-4" "" 3 5 10000 6000 cbsC9).attempts).get? 0
        = some ⟨1, "openai", "failed", some GoSrv.GoError.circuitBreakerOpen⟩ ∧
    GoSrv.isRetryable GoSrv.GoError.circuitBreakerOpen = false ∧
    wireC9 "anthropic" 1 = GoSrv.WireResult.ok "fine" := by
  decide

/-- C9 amended: when the provider selected on the first attempt has an open
circuit whose reset interval has not elapsed, no wire call reaches it, but
the orchestrator records one failed Attempt carrying the
`CircuitBreakerOpenError` and aborts the whole request with that error
(`isRetryable` returns false for it), instead of moving on to another
eligible provider. -/
theorem c9_amended_circuit_open_recorded_and_aborts
    (modelMap : List (String × List String)) (wire : String → Nat → GoSrv.WireResult)
    (model preferred p : String) (threshold timeout now maxRetries : Nat)
    (cbs cbs2 : List (String × GoSrv.CircuitBreaker)) (cb : GoSrv.CircuitBreaker)
    (hsel : GoSrv.SelectProvider modelMap model preferred 1 "" = Except.ok p)
    (hget : GoSrv.getCircuitBreaker cbs p threshold timeout = (cb, cbs2))
    (hopen : cb.state = GoSrv.CircuitState.open)
    (ht : now ≤ cb.openedAt + cb.timeout)
    (hmax : 1 ≤ maxRetries) :
    GoSrv.ExecuteRequest modelMap wire model preferred maxRetries threshold timeout now cbs =
      ⟨Except.error GoSrv.GoError.circuitBreakerOpen,
       [⟨1, p, "failed", some GoSrv.GoError.circuitBreakerOpen⟩],
       GoSrv.setCB cbs2 p cb⟩ := by
  obtain ⟨g, rfl⟩ : ∃ g, maxRetries = g + 1 := ⟨maxRetries - 1, by omega⟩
  have hio := GoSrv.IsOpen_open_rejects cb now hopen ht
  have hsend : GoSrv.SendRequest cb (wire p 1) now
      = (Except.error GoSrv.GoError.circuitBreakerOpen, cb) := by
    simp only [GoSrv.SendRequest, hio.1, if_true, hio.2]
  simp [GoSrv.ExecuteRequest, GoSrv.ExecuteRequestLoop, hsel, hget, hsend,
    GoSrv.isRetryable]

/-- Closed instance of the amended C9 statement at the counterexample's
configuration. -/
theorem c9_amended_witness :
    GoSrv.ExecuteRequest modelMapC9 wireC9 "gpt-4" "" 3 5 10000 6000 cbsC9 =
      ⟨Except.error GoSrv.GoError.circuitBreakerOpen,
       [⟨1, "openai", "failed", some GoSrv.GoError.circuitBreakerOpen⟩],
       GoSrv.setCB cbsC9 "openai" cbOpenGo⟩ :=
  c9_amended_circuit_open_recorded_and_aborts modelMapC9 wireC9 "gpt-4" "" "openai"
    5 10000 6000 3 cbsC9 cbsC9 cbOpenGo (by decide) (by decide) rfl (by decide)
    (by decide)

namespace M6

theorem join_append_one (l : List String) (c : String) :
    String.join (l ++ [c]) = String.join l ++ c := by
  simp [String.join, List.foldl_append]

theorem relayStep_ok (s : RelaySt) (raw : String) (content : Option String)
    (h : StateOk s) : StateOk (relayStep s raw content) := by
  cases content with
  | none => exact h
  | some c =>
    by_cases hc : c = ""
    · simpa [relayStep, hc] using h
    · obtain ⟨h1, h2⟩ := h
      constructor
      · simp [relayStep, hc, h1, join_append_one]
      · simp [relayStep, hc, h2]

theorem relayGo_ok (items : List StreamItem) :
    ∀ (s : RelaySt), StateOk s →
    ((relayGo s items).buf
        = String.join (((relayGo s items).forwarded).map Prod.snd)) ∧
    ((relayGo s items).outcome = RelayOutcome.stalled →
      (relayGo s items).writes =
        ((relayGo s items).forwarded).map (fun f => WriteEvt.chunk f.1)
          ++ [WriteEvt.errorEvent "Stream stalled - chunk timeout" (relayGo s items).buf,
              WriteEvt.endResp]) ∧
    ((relayGo s items).outcome = RelayOutcome.malformed →
      (relayGo s items).writes =
        ((relayGo s items).forwarded).map (fun f => WriteEvt.chunk f.1)
          ++ [WriteEvt.errorEvent "Malformed chunk" (relayGo s items).buf,
              WriteEvt.endResp]) := by
  induction items with
  | nil =>
    intro s h
    refine ⟨?_, ?_, ?_⟩ <;> simp [relayGo, h.1, h.2]
  | cons x rest ih =>
    intro s h
    cases x with
    | line raw content => exact ih (relayStep s raw content) (relayStep_ok s raw content h)
    | malformedLine raw => refine ⟨?_, ?_, ?_⟩ <;> simp [relayGo, h.1, h.2]
    | doneLine => refine ⟨?_, ?_, ?_⟩ <;> simp [relayGo, h.1, h.2]
    | stall => refine ⟨?_, ?_, ?_⟩ <;> simp [relayGo, h.1, h.2]

theorem relayGo_terminal (items : List StreamItem) :
    ∀ (extra : List StreamItem) (s : RelaySt),
    ((relayGo s items).outcome = RelayOutcome.stalled ∨
     (relayGo s items).outcome = RelayOutcome.malformed) →
    relayGo s (items ++ extra) = relayGo s items := by
  induction items with
  | nil =>
    intro extra s h
    simp [relayGo] at h
  | cons x rest ih =>
    intro extra s h
    cases x with
    | line raw content => exact ih extra (relayStep s raw content) h
    | malformedLine raw => rfl
    | doneLine => simp [relayGo] at h
    | stall => rfl

end M6

/-- C7: once the relay fails mid-stream (a stall past `chunkTimeout` or a
malformed chunk) after chunks were forwarded, the failure is terminal: the
error event's partial-content buffer is exactly the concatenation of the
forwarded content deltas; the relay consumes nothing after the failing item
(no retry against the upstream); and the client log is the forwarded chunk
writes followed by one error event carrying that buffer and the end of the
response — the streaming handler performs no further attempt after
`res.end()`. -/
theorem c7_post_chunk_stream_failure_terminal (items : List M6.StreamItem)
    (hfail : (M6.streamRequest items).outcome = M6.RelayOutcome.stalled ∨
             (M6.streamRequest items).outcome = M6.RelayOutcome.malformed)
    (_hfwd : (M6.streamRequest items).forwarded ≠ []) :
    (M6.streamRequest items).buf
        = String.join (((M6.streamRequest items).forwarded).map Prod.snd) ∧
    (∀ extra, M6.streamRequest (items ++ extra) = M6.streamRequest items) ∧
    ((M6.streamRequest items).outcome = M6.RelayOutcome.stalled →
      (M6.streamRequest items).writes =
        ((M6.streamRequest items).forwarded).map (fun f => M6.WriteEvt.chunk f.1)
          ++ [M6.WriteEvt.errorEvent "Stream stalled - chunk timeout"
                (M6.streamRequest items).buf, M6.WriteEvt.endResp]) ∧
    ((M6.streamRequest items).outcome = M6.RelayOutcome.malformed →
      (M6.streamRequest items).writes =
        ((M6.streamRequest items).forwarded).map (fun f => M6.WriteEvt.chunk f.1)
          ++ [M6.WriteEvt.errorEvent "Malformed chunk"
                (M6.streamRequest items).buf, M6.WriteEvt.endResp]) := by
  have hok := M6.relayGo_ok items ⟨"", [], []⟩ ⟨rfl, rfl⟩
  exact ⟨hok.1, fun extra => M6.relayGo_terminal items extra ⟨"", [], []⟩ hfail,
    hok.2.1, hok.2.2⟩

/-- Closed instance of the C7 statement on the two-chunks-then-stall
scenario. -/
theorem c7_witness :
    (M6.streamRequest itemsC7).buf
        = String.join (((M6.streamRequest itemsC7).forwarded).map Prod.snd) ∧
    M6.streamRequest (itemsC7 ++ [M6.StreamItem.doneLine]) = M6.streamRequest itemsC7 :=
  ⟨(c7_post_chunk_stream_failure_terminal itemsC7 (Or.inl (by decide)) (by decide)).1,
   (c7_post_chunk_stream_failure_terminal itemsC7 (Or.inl (by decide))
      (by decide)).2.1 [M6.StreamItem.doneLine]⟩

/-- C10: a well-formed chunk whose content delta is missing or empty is
skipped by the relay loop — nothing is forwarded, the buffer and write log
are untouched — while a chunk with a non-empty delta appends the delta to the
buffer and forwards the raw data to the caller. -/
theorem c10_empty_delta_not_forwarded :
    (∀ (s : M6.RelaySt) (raw : String) (rest : List M6.StreamItem),
        M6.relayGo s (M6.StreamItem.line raw none :: rest) = M6.relayGo s rest) ∧
    (∀ (s : M6.RelaySt) (raw : String) (rest : List M6.StreamItem),
        M6.relayGo s (M6.StreamItem.line raw (some "") :: rest) = M6.relayGo s rest) ∧
    (∀ (s : M6.RelaySt) (raw c : String) (rest : List M6.StreamItem), c ≠ "" →
        M6.relayGo s (M6.StreamItem.line raw (some c) :: rest)
          = M6.relayGo ⟨s.buf ++ c, s.forwarded ++ [(raw, c)],
              s.writes ++ [M6.WriteEvt.chunk raw]⟩ rest) := by
  refine ⟨fun s raw rest => rfl, fun s raw rest => by simp [M6.relayGo, M6.relayStep],
    fun s raw c rest hc => by simp [M6.relayGo, M6.relayStep, hc]⟩

/-- Closed instance of the C10 statement: an empty and a non-empty delta. -/
theorem c10_witness :
    M6.relayGo ⟨"", [], []⟩ [M6.StreamItem.line "raw1" (some "Hi"), M6.StreamItem.stall]
      = M6.relayGo ⟨"" ++ "Hi", [] ++ [("raw1", "Hi")],
          [] ++ [M6.WriteEvt.chunk "raw1"]⟩ [M6.StreamItem.stall] :=
  (c10_empty_delta_not_forwarded.2.2) ⟨"", [], []⟩ "raw1" "Hi"
    [M6.StreamItem.stall] (by decide)

/-- Closed instance of the amended C2 statement: a sole eligible provider is
re-selected on retry, and `getNextProvider` wraps to the first provider when
failing over from the second. -/
theorem c2_amended_witness :
    GoSrv.SelectProvider [("gpt-4", ["openai"])] "gpt-4" "" 2 "openai"
        = Except.ok "openai" ∧
    (TS.getNextProvider [pOpenai, pAnthropic] "anthropic" 1000).1
        = some { pOpenai with circuit := (TS.canExecute pOpenai.circuit 1000).2 } :=
  ⟨c2_amended_router_fallback.2.1 [("gpt-4", ["openai"])] "gpt-4" "" "openai" 2
      (by decide) (by decide) (by decide),
   c2_amended_router_fallback.2.2 pOpenai pAnthropic "anthropic" 1000
      (by decide) (by decide) (by decide)⟩
